import Mathlib

/-!
Shallow embedding of the RW repository's schema-driven prediction form.

Source files:
* `frontend/app/page.tsx` — the page component: form state, submit
  lifecycle, field rendering, initial schema/metrics load.
* `frontend/app/api.ts` — the API client: `getSchema`, `getMetrics`,
  `predict`.

JavaScript runtime values are modelled as follows: a JS `number` is a
`JsNumber` (NaN, ±Infinity, or a finite rational); the form/payload value
type `number | string | null` is `Value`; string-keyed JS records are
association lists in property creation order, with property assignment
updating an existing key in place and appending a fresh key at the end.
The *observable* key sequence of such an object (`Object.keys`,
`for...in`, `JSON.stringify`) is not plain creation order: per
OrdinaryOwnPropertyKeys, keys that are canonical array indices (the
canonical decimal form of an integer below 2^32 − 1) enumerate first, in
ascending numeric order, followed by the remaining string keys in
creation order; `jsOwnEnum` applies that rule. `Number(s)`
string-to-number coercion is a runtime primitive, so the definitions that
use it are parameterized over an arbitrary `jsNum : String → JsNumber`.
-/

namespace RW

/-- A JavaScript `number`: NaN, the two infinities, or a finite value
(modelled as a rational). -/
inductive JsNumber where
  | nan : JsNumber
  | posInf : JsNumber
  | negInf : JsNumber
  | finite (q : ℚ) : JsNumber
deriving DecidableEq

/-- JS global `isFinite` applied to an already-coerced number: false for
NaN and the infinities, true for finite values. -/
def JsNumber.isFinite : JsNumber → Bool
  | .finite _ => true
  | _ => false

/-- A form / payload value: `number | string | null` (page.tsx stores these
in the `form` record and in the outbound payload). -/
inductive Value where
  | null : Value
  | num (n : JsNumber) : Value
  | str (s : String) : Value
deriving DecidableEq

/-- JS `a || b` on strings (the falsy strings being exactly `""`; an
`undefined` message is modelled as `""`, which `||` treats the same way). -/
def jsOr (s fallback : String) : String :=
  if s = "" then fallback else s

/-- The page's `form` state: a string-keyed JS record of `Value`s, as an
association list in insertion order. -/
abbrev FormValues := List (String × Value)

/-- The outbound prediction payload: a string-keyed JS record of `Value`s. -/
abbrev Payload := List (String × Value)

/-- JS object property assignment `obj[k] = v` at the storage level: if
`k` is already a key, its value is updated in place (the key keeps its
creation position); otherwise the pair is appended at the end. This is
property *creation* order; the observable enumeration order is obtained
from it by `jsOwnEnum`, which moves canonical array-index keys to the
front in ascending numeric order. -/
def objInsert (obj : List (String × Value)) (k : String) (v : Value) :
    List (String × Value) :=
  if k ∈ obj.map Prod.fst then
    obj.map (fun p => if p.1 = k then (k, v) else p)
  else
    obj ++ [(k, v)]

/-- Models `form[key] ?? null` (page.tsx line 51): the stored entry if one
is present (a stored `null` stays `null`), and `null` when the key is
absent. -/
def jsLookup (form : FormValues) (k : String) : Value :=
  (List.lookup k form).getD Value.null

/-- page.tsx lines 49–52: `const payload = {}; for (const key of
feature_order) payload[key] = form[key] ?? null;`. -/
def buildPayload (feature_order : List String) (form : FormValues) : Payload :=
  feature_order.foldl (fun payload key => objInsert payload key (jsLookup form key)) []

/-- page.tsx lines 38–40, `onChange`: `setForm(f => (\x7b ...f, [name]: value \x7d))`
— replaces the entry for `name`, leaving all other entries untouched. -/
def onChange (f : FormValues) (name : String) (value : Value) : FormValues :=
  objInsert f name value

/-- page.tsx line 110, the number-input change handler:
`e.target.value === "" ? null : Number(e.target.value)`. -/
def numberCoerce (jsNum : String → JsNumber) (raw : String) : Value :=
  if raw = "" then Value.null else Value.num (jsNum raw)

/-- page.tsx lines 75–79, the select change handler: `v === "" ? null :
isFinite(Number(v)) ? Number(v) : v`. -/
def selectCoerce (jsNum : String → JsNumber) (raw : String) : Value :=
  if raw = "" then Value.null
  else if (jsNum raw).isFinite then Value.num (jsNum raw)
  else Value.str raw

/-- page.tsx line 133, the text-input change handler:
`e.target.value || null`. -/
def textCoerce (raw : String) : Value :=
  if raw = "" then Value.null else Value.str raw

/-- An element of a select field's `options` array: `string | number`. -/
inductive StrOrNum where
  | s (v : String) : StrOrNum
  | n (v : JsNumber) : StrOrNum
deriving DecidableEq

/-- A runtime `field_meta` entry, as the untyped JSON object page.tsx
actually receives: every property is optional (the declared `FieldMeta`
union in page.tsx lines 6–9 is a compile-time fiction for data arriving
from the server). -/
structure MetaObj where
  type : Option String
  options : Option (List StrOrNum)
  min : Option JsNumber
  max : Option JsNumber
  placeholder : Option String
deriving DecidableEq

/-- The interactive control descriptor `renderField` produces: which
control is drawn and with which label, displayed value, and presentation
hints. -/
inductive Control where
  | selectC (label : String) (value : Value) (options : List StrOrNum) : Control
  | numberC (label : String) (value : Value) (mn mx : Option JsNumber)
      (placeholder : String) : Control
  | textC (label : String) (value : Value) (placeholder : String) : Control
deriving DecidableEq

/-- page.tsx line 63: `name.replaceAll("_", " ")` — the display label is
the field name with every underscore replaced by a space (the pattern is a
single character, so per-character replacement is exact). -/
def labelOf (name : String) : String :=
  String.mk (name.data.map (fun c => if c = '_' then ' ' else c))

/-- page.tsx line 64: `const value = form[name] ?? "";` — the displayed
value is the stored entry, with a missing or `null` entry displayed as `""`. -/
def displayedValue (form : FormValues) (name : String) : Value :=
  match List.lookup name form with
  | some Value.null => Value.str ""
  | some v => v
  | none => Value.str ""

/-- page.tsx lines 62–144, `renderField`: dispatch on `meta?.type`
(`"select"`, then `"number"`, else the free-text control); the label is the
field name with `"_"` replaced by spaces; the number and text branches use
`(meta as any).placeholder || ""`, the select branch uses
`meta.options || []`. -/
def renderField (name : String) (meta : MetaObj) (form : FormValues) : Control :=
  let label := labelOf name
  let value := displayedValue form name
  if meta.type = some "select" then
    Control.selectC label value (meta.options.getD [])
  else if meta.type = some "number" then
    Control.numberC label value meta.min meta.max (meta.placeholder.getD "")
  else
    Control.textC label value (meta.placeholder.getD "")

/-- page.tsx line 224: `schema.field_meta?.[name] || \x7b type: "text" \x7d` —
the meta looked up by name, defaulting to a bare text meta when absent. -/
def metaFor (field_meta : List (String × MetaObj)) (name : String) : MetaObj :=
  (List.lookup name field_meta).getD
    { type := some "text", options := none, min := none, max := none,
      placeholder := none }

/-- The server schema: `feature_order` plus the name→meta record
(page.tsx reads `schema.feature_order` and `schema.field_meta`). -/
structure Schema where
  feature_order : List String
  field_meta : List (String × MetaObj)
deriving DecidableEq

/-- The metrics snapshot: an opaque name→value record used only for
display. -/
abbrev Metrics := List (String × Value)

/-- page.tsx lines 11–15, `PredictionResult`. -/
structure PredictionResult where
  probability : JsNumber
  risk_label : String
  inputs_used : List (String × Value)
deriving DecidableEq

/-- An HTTP response as the API client sees it: the `ok` flag and the
already-parsed JSON body. -/
structure FetchResponse (α : Type) where
  ok : Bool
  body : α

/-- api.ts lines 4–8, `getSchema`: throws `Error("Failed to fetch schema")`
when `!res.ok`, otherwise returns the parsed body. -/
def getSchema (resp : FetchResponse Schema) : Except String Schema :=
  if resp.ok then Except.ok resp.body else Except.error "Failed to fetch schema"

/-- api.ts lines 10–14, `getMetrics`: throws
`Error("Failed to fetch metrics")` when `!res.ok`. -/
def getMetrics (resp : FetchResponse Metrics) : Except String Metrics :=
  if resp.ok then Except.ok resp.body else Except.error "Failed to fetch metrics"

/-- api.ts lines 16–24, `predict`: POSTs the payload and throws
`Error("Prediction failed")` when `!res.ok`. -/
def predict (payload : Payload) (resp : FetchResponse PredictionResult) :
    Except String PredictionResult :=
  if resp.ok then Except.ok resp.body else Except.error "Prediction failed"

/-- One state-setter or request step performed by the submit handler. -/
inductive SetAction where
  | setLoading (b : Bool) : SetAction
  | setError (s : String) : SetAction
  | setResult (r : Option PredictionResult) : SetAction
  | callPredict (p : Payload) : SetAction
deriving DecidableEq

/-- page.tsx lines 42–60, `onSubmit`, as the sequence of steps it performs,
parameterized by the outcome of the `predict` call (an `Except.error msg`
models any thrown failure; a missing/`undefined` message is `""`):
`setLoading(true); setError(""); setResult(null);` then build the payload
from `schema?.feature_order || []` and call `predict`; on success
`setResult(res)`, on failure `setError(e.message || "Prediction failed")`;
`finally setLoading(false)`. -/
def onSubmit (schema : Option Schema) (form : FormValues)
    (outcome : Except String PredictionResult) : List SetAction :=
  [SetAction.setLoading true, SetAction.setError "", SetAction.setResult none,
   SetAction.callPredict (buildPayload ((schema.map Schema.feature_order).getD []) form)]
  ++ (match outcome with
      | Except.ok res => [SetAction.setResult (some res)]
      | Except.error msg => [SetAction.setError (jsOr msg "Prediction failed")])
  ++ [SetAction.setLoading false]

/-- One step performed by the initial load effect. -/
inductive LoadAction where
  | fetchSchemaReq : LoadAction
  | setSchema (s : Schema) : LoadAction
  | fetchMetricsReq : LoadAction
  | setMetrics (m : Metrics) : LoadAction
  | setLoadError (msg : String) : LoadAction
deriving DecidableEq

/-- page.tsx lines 25–36, the mount effect, as the sequence of steps it
performs given the outcomes of the two fetches: `await getSchema` then
`setSchema`; only then `await getMetrics` then `setMetrics`; a failure of
either jumps to the catch, which does only
`setError(e.message || "Failed to load schema/metrics")`. -/
def loadSequence (schemaOutcome : Except String Schema)
    (metricsOutcome : Except String Metrics) : List LoadAction :=
  LoadAction.fetchSchemaReq ::
  match schemaOutcome with
  | Except.error msg => [LoadAction.setLoadError (jsOr msg "Failed to load schema/metrics")]
  | Except.ok s =>
      LoadAction.setSchema s :: LoadAction.fetchMetricsReq ::
      match metricsOutcome with
      | Except.error msg => [LoadAction.setLoadError (jsOr msg "Failed to load schema/metrics")]
      | Except.ok m => [LoadAction.setMetrics m]

/-- Progress of the mount effect: before the schema response, between the
schema and metrics responses, and finished (either normally or through the
catch). -/
inductive LoadPhase where
  | fetchingSchema : LoadPhase
  | fetchingMetrics : LoadPhase
  | done : LoadPhase
deriving DecidableEq

/-- The page component's state (page.tsx lines 18–23) together with the
number of outstanding `predict` requests and two ghost fields used only to
state history properties: `ghostSubmitted` records that a submission was
ever started, `ghostLateLoadErr` that an initial-load failure response
arrived after a submission had started. Neither ghost field influences any
non-ghost field. -/
structure PageState where
  schema : Option Schema
  metrics : Option Metrics
  form : List (String × Value)
  loading : Bool
  result : Option PredictionResult
  error : String
  loadPhase : LoadPhase
  inFlight : Nat
  ghostSubmitted : Bool
  ghostLateLoadErr : Bool
deriving DecidableEq

/-- The events the page reacts to: the four initial-load responses, a field
edit, the submit click, the two `predict` outcomes, and the reset click. -/
inductive Event where
  | schemaOk (s : Schema) : Event
  | schemaErr (msg : String) : Event
  | metricsOk (m : Metrics) : Event
  | metricsErr (msg : String) : Event
  | edit (name : String) (v : Value) : Event
  | clickSubmit : Event
  | predictOk (r : PredictionResult) : Event
  | predictErr (msg : String) : Event
  | clickReset : Event

/-- The state on mount: everything unset, the schema fetch pending. -/
def initState : PageState :=
  { schema := none, metrics := none, form := [], loading := false,
    result := none, error := "", loadPhase := LoadPhase.fetchingSchema,
    inFlight := 0, ghostSubmitted := false, ghostLateLoadErr := false }

/-- The page's reaction to one event, transcribing page.tsx:
* `schemaOk`/`schemaErr` (lines 28–29, 32–33): only while the schema fetch
  is pending; on failure the catch sets the error message and the effect
  ends, so `getMetrics` is never issued.
* `metricsOk`/`metricsErr` (lines 30–33): only while the metrics fetch is
  pending; failure only sets the error — schema, form and result are kept.
* `edit`/`clickSubmit`/`clickReset`: the form, submit button and reset
  button exist only when `schema` is set (lines 212–261); the submit button
  is `disabled=\x7bloading\x7d` (line 231), so a click while loading is no
  event at all — modelled as a no-op that issues no request. A permitted
  click runs the synchronous prefix of `onSubmit` (lines 44–53): loading
  on, error and result cleared, one `predict` request issued.
* `predictOk`/`predictErr` (lines 53–59): resolution of an outstanding
  `predict` call; success stores the result, failure stores
  `e.message || "Prediction failed"`; `finally` clears loading. -/
def step (s : PageState) (e : Event) : PageState :=
  match e with
  | Event.schemaOk sc =>
      if s.loadPhase = LoadPhase.fetchingSchema then
        { s with schema := some sc, loadPhase := LoadPhase.fetchingMetrics }
      else s
  | Event.schemaErr msg =>
      if s.loadPhase = LoadPhase.fetchingSchema then
        { s with error := jsOr msg "Failed to load schema/metrics",
                 loadPhase := LoadPhase.done,
                 ghostLateLoadErr := s.ghostLateLoadErr || s.ghostSubmitted }
      else s
  | Event.metricsOk m =>
      if s.loadPhase = LoadPhase.fetchingMetrics then
        { s with metrics := some m, loadPhase := LoadPhase.done }
      else s
  | Event.metricsErr msg =>
      if s.loadPhase = LoadPhase.fetchingMetrics then
        { s with error := jsOr msg "Failed to load schema/metrics",
                 loadPhase := LoadPhase.done,
                 ghostLateLoadErr := s.ghostLateLoadErr || s.ghostSubmitted }
      else s
  | Event.edit name v =>
      if s.schema.isSome then { s with form := onChange s.form name v } else s
  | Event.clickSubmit =>
      if s.schema.isSome && !s.loading then
        { s with loading := true, error := "", result := none,
                 inFlight := s.inFlight + 1, ghostSubmitted := true }
      else s
  | Event.predictOk r =>
      if 0 < s.inFlight then
        { s with result := some r, loading := false, inFlight := s.inFlight - 1 }
      else s
  | Event.predictErr msg =>
      if 0 < s.inFlight then
        { s with error := jsOr msg "Prediction failed", loading := false,
                 inFlight := s.inFlight - 1 }
      else s
  | Event.clickReset =>
      if s.schema.isSome then { s with form := [], result := none } else s

/-- The state after a finite event history from mount. -/
def run (evs : List Event) : PageState :=
  evs.foldl step initState

/-- The states the page can actually be in. -/
inductive Reachable : PageState → Prop where
  | init : Reachable initState
  | step {s : PageState} (h : Reachable s) (e : Event) : Reachable (step s e)

/-- The inductive invariant of the page machine: the outstanding-request
count mirrors `loading`; `loading` and a stored result each imply a
submission was started; while loading (and with no late load failure)
error and result are both clear; and when idle (and with no late load
failure) at most one of error and result is set. -/
def Inv (s : PageState) : Prop :=
  s.inFlight = (if s.loading then 1 else 0) ∧
  (s.loading = true → s.ghostSubmitted = true) ∧
  (s.result ≠ none → s.ghostSubmitted = true) ∧
  (s.loading = true → s.ghostLateLoadErr = false → s.error = "" ∧ s.result = none) ∧
  (s.loading = false → s.ghostLateLoadErr = false → s.error = "" ∨ s.result = none)

/-- A concrete schema (the spec's worked scenario): a number field `age`
and a select field `category` with options `A`, `B`. -/
def sc0 : Schema :=
  { feature_order := ["age", "category"],
    field_meta :=
      [("age", { type := some "number", options := none, min := none,
                 max := none, placeholder := none }),
       ("category", { type := some "select",
                      options := some [StrOrNum.s "A", StrOrNum.s "B"],
                      min := none, max := none, placeholder := none })] }

/-- A concrete prediction result (the spec's worked scenario). -/
def r0 : PredictionResult :=
  { probability := JsNumber.finite (41 / 50), risk_label := "High Risk",
    inputs_used := [] }

/-- A concrete instance of the JS `Number` string coercion, for witnesses:
`"" ↦ 0`, `"42" ↦ 42`, `"34" ↦ 34`, anything else `↦ NaN`. -/
def jsNum0 : String → JsNumber := fun s =>
  if s = "" then JsNumber.finite 0
  else if s = "42" then JsNumber.finite 42
  else if s = "34" then JsNumber.finite 34
  else JsNumber.nan

/-- A runtime meta object of an unrecognized kind that carries a
placeholder. -/
def metaUnknown : MetaObj :=
  { type := some "checkbox", options := none, min := none, max := none,
    placeholder := some "hi" }

/-- Event history: schema loads, then one submit is started (and stays in
flight). -/
def c3trace : List Event := [Event.schemaOk sc0, Event.clickSubmit]

/-- Event history: schema loads, a submit succeeds, and only then does the
initial metrics fetch fail. -/
def c4trace : List Event :=
  [Event.schemaOk sc0, Event.clickSubmit, Event.predictOk r0,
   Event.metricsErr "Failed to fetch metrics"]

/-! ## Helper lemmas -/

theorem inv_init : Inv initState := by
  simp [Inv, initState]

theorem inv_step (s : PageState) (e : Event) (h : Inv s) : Inv (step s e) := by
  obtain ⟨h1, h2, h3, h4, h5⟩ := h
  cases e with
  | schemaOk sc =>
      simp only [step]
      split
      · exact ⟨h1, h2, h3, h4, h5⟩
      · exact ⟨h1, h2, h3, h4, h5⟩
  | schemaErr msg =>
      simp only [step]
      split
      · refine ⟨h1, h2, h3, fun hl hg => ?_, fun hl hg => ?_⟩
        · have hg2 : s.ghostSubmitted = false := (Bool.or_eq_false_iff.mp hg).2
          rw [h2 hl] at hg2
          exact Bool.noConfusion hg2
        · have hg2 : s.ghostSubmitted = false := (Bool.or_eq_false_iff.mp hg).2
          right
          by_contra hr
          rw [h3 hr] at hg2
          exact Bool.noConfusion hg2
      · exact ⟨h1, h2, h3, h4, h5⟩
  | metricsOk m =>
      simp only [step]
      split
      · exact ⟨h1, h2, h3, h4, h5⟩
      · exact ⟨h1, h2, h3, h4, h5⟩
  | metricsErr msg =>
      simp only [step]
      split
      · refine ⟨h1, h2, h3, fun hl hg => ?_, fun hl hg => ?_⟩
        · have hg2 : s.ghostSubmitted = false := (Bool.or_eq_false_iff.mp hg).2
          rw [h2 hl] at hg2
          exact Bool.noConfusion hg2
        · have hg2 : s.ghostSubmitted = false := (Bool.or_eq_false_iff.mp hg).2
          right
          by_contra hr
          rw [h3 hr] at hg2
          exact Bool.noConfusion hg2
      · exact ⟨h1, h2, h3, h4, h5⟩
  | edit name v =>
      simp only [step]
      split
      · exact ⟨h1, h2, h3, h4, h5⟩
      · exact ⟨h1, h2, h3, h4, h5⟩
  | clickSubmit =>
      simp only [step]
      split
      · rename_i hcond
        have hl : s.loading = false := by
          cases hb : s.loading
          · rfl
          · rw [hb] at hcond; simp at hcond
        refine ⟨?_, fun _ => rfl, fun _ => rfl, fun _ _ => ⟨rfl, rfl⟩,
          fun hl' _ => Bool.noConfusion hl'⟩
        · show s.inFlight + 1 = 1
          rw [h1, hl]
          simp
      · exact ⟨h1, h2, h3, h4, h5⟩
  | predictOk r =>
      simp only [step]
      split
      · rename_i hpos
        have hl : s.loading = true := by
          cases hb : s.loading
          · rw [h1, hb] at hpos; exact absurd hpos (by simp)
          · rfl
        refine ⟨?_, fun hl' => Bool.noConfusion hl', fun _ => h2 hl,
          fun hl' _ => Bool.noConfusion hl', fun _ hg => Or.inl (h4 hl hg).1⟩
        · show s.inFlight - 1 = 0
          rw [h1, hl]
          simp
      · exact ⟨h1, h2, h3, h4, h5⟩
  | predictErr msg =>
      simp only [step]
      split
      · rename_i hpos
        have hl : s.loading = true := by
          cases hb : s.loading
          · rw [h1, hb] at hpos; exact absurd hpos (by simp)
          · rfl
        refine ⟨?_, fun hl' => Bool.noConfusion hl', fun hr => h3 hr,
          fun hl' _ => Bool.noConfusion hl', fun _ hg => Or.inr (h4 hl hg).2⟩
        · show s.inFlight - 1 = 0
          rw [h1, hl]
          simp
      · exact ⟨h1, h2, h3, h4, h5⟩
  | clickReset =>
      simp only [step]
      split
      · exact ⟨h1, h2, fun hr => absurd rfl hr, fun hl hg => ⟨(h4 hl hg).1, rfl⟩,
          fun _ _ => Or.inr rfl⟩
      · exact ⟨h1, h2, h3, h4, h5⟩

theorem reachable_inv {s : PageState} (h : Reachable s) : Inv s := by
  induction h with
  | init => exact inv_init
  | step h e ih => exact inv_step _ e ih

theorem reachable_foldl (s : PageState) (h : Reachable s) :
    ∀ evs : List Event, Reachable (evs.foldl step s) := by
  intro evs
  induction evs generalizing s with
  | nil => simpa using h
  | cons e rest ih => exact ih _ (Reachable.step h e)

theorem reachable_run (evs : List Event) : Reachable (run evs) :=
  reachable_foldl initState Reachable.init evs

/-! ## Claim theorems -/

/-- C3: in every reachable state at most one prediction request is
outstanding, and a submit click while `loading` is true leaves the state
unchanged — in particular it issues no second request (the trigger is
disabled while loading). -/
theorem submitGuard (s : PageState) (h : Reachable s) :
    s.inFlight ≤ 1 ∧ (s.loading = true → step s Event.clickSubmit = s) := by
  have hinv := reachable_inv h
  refine ⟨?_, fun hl => ?_⟩
  · rw [hinv.1]
    split <;> simp
  · simp [step, hl]

/-- Witness for `submitGuard` at a reachable loading state: schema loaded,
one submit started and still in flight. -/
theorem submitGuard_witness :
    (run c3trace).inFlight ≤ 1 ∧
    step (run c3trace) Event.clickSubmit = run c3trace := by
  have h := submitGuard (run c3trace) (reachable_run c3trace)
  exact ⟨h.1, h.2 (by decide)⟩

/-- C4 counterexample: after the history "schema loads, a submit succeeds,
then the initial metrics fetch fails", the page is reachable, not loading,
and has a non-empty error *and* a non-null result at once. -/
theorem mutualExclusion_counterexample :
    Reachable (run c4trace) ∧ (run c4trace).loading = false ∧
    (run c4trace).error ≠ "" ∧ (run c4trace).result ≠ none :=
  ⟨reachable_run c4trace, by decide, by decide, by decide⟩

/-- C4 (amended): each fresh submission clears both error and result when
it starts; and in every reachable non-loading state in which no
initial-load failure response arrived after a submission had started,
error non-empty and result non-null are mutually exclusive. (A late
metrics-load failure arriving after a successful submit sets the error
without clearing the result.) -/
theorem submitClears (s : PageState) (h : Reachable s) :
    (s.ghostLateLoadErr = false → s.loading = false →
      s.error = "" ∨ s.result = none) ∧
    (s.loading = false → s.schema.isSome = true →
      (step s Event.clickSubmit).error = "" ∧
      (step s Event.clickSubmit).result = none ∧
      (step s Event.clickSubmit).loading = true) := by
  have hinv := reachable_inv h
  refine ⟨fun hg hl => hinv.2.2.2.2 hl hg, fun hl hs => ?_⟩
  simp [step, hl, hs]

/-- Witness for `submitClears`: the state after the schema loads, and the
effect of clicking submit there. -/
theorem submitClears_witness :
    ((run [Event.schemaOk sc0]).error = "" ∨
      (run [Event.schemaOk sc0]).result = none) ∧
    (step (run [Event.schemaOk sc0]) Event.clickSubmit).error = "" := by
  have h := submitClears (run [Event.schemaOk sc0]) (reachable_run _)
  exact ⟨h.1 (by decide) (by decide), (h.2 (by decide) (by decide)).1⟩


/-- C5: for every select-field edit, a choice string that parses as a
finite number is stored as that number; any other non-empty choice string
is stored unchanged; and the empty (sentinel) selection stores `null`. -/
theorem selectCoerce_spec (jsNum : String → JsNumber) (raw : String) :
    (raw = "" → selectCoerce jsNum raw = Value.null) ∧
    (raw ≠ "" → ∀ q : ℚ, jsNum raw = JsNumber.finite q →
      selectCoerce jsNum raw = Value.num (JsNumber.finite q)) ∧
    (raw ≠ "" → (jsNum raw).isFinite = false → selectCoerce jsNum raw = Value.str raw) := by
  refine ⟨fun h => ?_, fun h q hq => ?_, fun h hf => ?_⟩
  · simp [selectCoerce, h]
  · simp [selectCoerce, h, hq, JsNumber.isFinite]
  · simp [selectCoerce, h, hf]

/-- Witness for `selectCoerce_spec` at the concrete coercion `jsNum0`:
empty selection stores `null`, `"42"` stores the number 42, `"B"` (not
finite-numeric) stores the raw string. -/
theorem selectCoerce_spec_witness :
    selectCoerce jsNum0 "" = Value.null ∧
    selectCoerce jsNum0 "42" = Value.num (JsNumber.finite 42) ∧
    selectCoerce jsNum0 "B" = Value.str "B" :=
  ⟨(selectCoerce_spec jsNum0 "").1 rfl,
   (selectCoerce_spec jsNum0 "42").2.1 (by decide) 42 (by decide),
   (selectCoerce_spec jsNum0 "B").2.2 (by decide) (by decide)⟩

/-- C6: for every number-field edit, an empty raw input string stores
`null` in the form values — which is neither `NaN` nor the empty string. -/
theorem numberCoerce_empty (jsNum : String → JsNumber) :
    numberCoerce jsNum "" = Value.null ∧
    Value.null ≠ Value.num JsNumber.nan ∧
    ∀ s : String, Value.null ≠ Value.str s := by
  refine ⟨by simp [numberCoerce], by simp, fun s => by simp⟩

/-- Witness for `numberCoerce_empty` at the concrete coercion `jsNum0`. -/
theorem numberCoerce_empty_witness :
    numberCoerce jsNum0 "" = Value.null :=
  (numberCoerce_empty jsNum0).1

/-- C10: for every number-field edit with a non-empty raw string, the
stored entry is exactly the numeric coercion of the string — never `null`
— and in particular it is `NaN` whenever the string does not parse as a
number. -/
theorem numberCoerce_nonempty (jsNum : String → JsNumber) (raw : String)
    (h : raw ≠ "") :
    numberCoerce jsNum raw = Value.num (jsNum raw) ∧
    numberCoerce jsNum raw ≠ Value.null ∧
    (jsNum raw = JsNumber.nan → numberCoerce jsNum raw = Value.num JsNumber.nan) := by
  refine ⟨by simp [numberCoerce, h], by simp [numberCoerce, h], fun hn => ?_⟩
  simp [numberCoerce, h, hn]

/-- Witness for `numberCoerce_nonempty`: the non-numeric entry `"abc"` is
stored as `NaN`. -/
theorem numberCoerce_nonempty_witness :
    numberCoerce jsNum0 "abc" = Value.num JsNumber.nan :=
  (numberCoerce_nonempty jsNum0 "abc" (by decide)).2.2 (by decide)

/-- C8: each API call maps a non-success HTTP status to its fixed,
endpoint-specific error message. -/
theorem apiErrorMessages (rs : FetchResponse Schema) (rm : FetchResponse Metrics)
    (p : Payload) (rp : FetchResponse PredictionResult) :
    (rs.ok = false → getSchema rs = Except.error "Failed to fetch schema") ∧
    (rm.ok = false → getMetrics rm = Except.error "Failed to fetch metrics") ∧
    (rp.ok = false → predict p rp = Except.error "Prediction failed") := by
  refine ⟨fun h => ?_, fun h => ?_, fun h => ?_⟩ <;>
    simp [getSchema, getMetrics, predict, h]

/-- Witness for `apiErrorMessages` at concrete non-ok responses. -/
theorem apiErrorMessages_witness :
    getSchema ⟨false, sc0⟩ = Except.error "Failed to fetch schema" ∧
    getMetrics ⟨false, []⟩ = Except.error "Failed to fetch metrics" ∧
    predict [] ⟨false, r0⟩ = Except.error "Prediction failed" := by
  have h := apiErrorMessages ⟨false, sc0⟩ ⟨false, []⟩ [] ⟨false, r0⟩
  exact ⟨h.1 rfl, h.2.1 rfl, h.2.2 rfl⟩

/-- C2: every submit attempt first sets loading and clears error and
result, then issues exactly one `predict` call; on success the result is
stored, on failure the error is set to the failure's message (with the
generic fallback when the message is empty); and loading is cleared
exactly once, as the final step, in both cases. -/
theorem onSubmit_lifecycle (schema : Option Schema) (form : FormValues)
    (outcome : Except String PredictionResult) :
    (onSubmit schema form outcome).take 3 =
      [SetAction.setLoading true, SetAction.setError "", SetAction.setResult none] ∧
    (onSubmit schema form outcome).getLast? = some (SetAction.setLoading false) ∧
    (onSubmit schema form outcome).count (SetAction.setLoading false) = 1 ∧
    (∀ res, outcome = Except.ok res →
      onSubmit schema form outcome =
        [SetAction.setLoading true, SetAction.setError "", SetAction.setResult none,
         SetAction.callPredict
           (buildPayload ((schema.map Schema.feature_order).getD []) form),
         SetAction.setResult (some res), SetAction.setLoading false]) ∧
    (∀ msg, outcome = Except.error msg →
      onSubmit schema form outcome =
        [SetAction.setLoading true, SetAction.setError "", SetAction.setResult none,
         SetAction.callPredict
           (buildPayload ((schema.map Schema.feature_order).getD []) form),
         SetAction.setError (jsOr msg "Prediction failed"),
         SetAction.setLoading false]) := by
  cases outcome <;>
    simp [onSubmit, List.count_cons, List.count_nil]

/-- Witness for `onSubmit_lifecycle` at a successful concrete submit. -/
theorem onSubmit_lifecycle_witness :
    onSubmit (some sc0) [] (Except.ok r0) =
      [SetAction.setLoading true, SetAction.setError "", SetAction.setResult none,
       SetAction.callPredict (buildPayload sc0.feature_order []),
       SetAction.setResult (some r0), SetAction.setLoading false] := by
  exact (onSubmit_lifecycle (some sc0) [] (Except.ok r0)).2.2.2.1 r0 rfl

/-- C9: the initial load issues the schema fetch first; a schema failure
means the metrics fetch is never issued; a metrics failure happens only
after the schema was stored, and it performs nothing but `setError` — at
the state-machine level a metrics failure preserves the stored schema,
form, result and loading flag. -/
theorem loadSequence_spec (so : Except String Schema) (mo : Except String Metrics) :
    (loadSequence so mo).head? = some LoadAction.fetchSchemaReq ∧
    (∀ msg, so = Except.error msg →
      loadSequence so mo =
        [LoadAction.fetchSchemaReq,
         LoadAction.setLoadError (jsOr msg "Failed to load schema/metrics")] ∧
      LoadAction.fetchMetricsReq ∉ loadSequence so mo) ∧
    (∀ s msg, so = Except.ok s → mo = Except.error msg →
      loadSequence so mo =
        [LoadAction.fetchSchemaReq, LoadAction.setSchema s,
         LoadAction.fetchMetricsReq,
         LoadAction.setLoadError (jsOr msg "Failed to load schema/metrics")]) ∧
    (∀ st msg,
      (step st (Event.metricsErr msg)).schema = st.schema ∧
      (step st (Event.metricsErr msg)).form = st.form ∧
      (step st (Event.metricsErr msg)).result = st.result ∧
      (step st (Event.metricsErr msg)).loading = st.loading) := by
  refine ⟨?_, fun msg hmsg => ?_, fun s msg hs hm => ?_, fun st msg => ?_⟩
  · cases so <;> simp [loadSequence]
  · subst hmsg; simp [loadSequence]
  · subst hs; subst hm; simp [loadSequence]
  · simp only [step]
    split <;> simp

/-- Witness for `loadSequence_spec`: a failed schema fetch yields only the
fetch and the error-setting step. -/
theorem loadSequence_spec_witness :
    loadSequence (Except.error "Failed to fetch schema") (Except.ok []) =
      [LoadAction.fetchSchemaReq,
       LoadAction.setLoadError "Failed to fetch schema"] ∧
    LoadAction.fetchMetricsReq ∉
      loadSequence (Except.error "Failed to fetch schema") (Except.ok []) := by
  exact (loadSequence_spec (Except.error "Failed to fetch schema")
    (Except.ok [])).2.1 "Failed to fetch schema" rfl

/-- C7 counterexample: a meta object of unrecognized kind `"checkbox"`
carrying `placeholder: "hi"` renders as the free-text control *with* that
placeholder, not with an empty one. -/
theorem renderField_placeholder_counterexample :
    renderField "f" metaUnknown [] = Control.textC "f" (Value.str "") "hi" ∧
    renderField "f" metaUnknown [] ≠ Control.textC "f" (Value.str "") "" := by
  exact ⟨by decide, by decide⟩

/-- C7 (amended): a missing `field_meta` entry renders as the free-text
control with no placeholder, and any meta whose kind is neither `select`
nor `number` renders as the free-text control carrying the meta's own
placeholder when present (empty otherwise) — the renderer never fails. -/
theorem renderField_default (name : String) (meta : MetaObj) (form : FormValues)
    (field_meta : List (String × MetaObj)) :
    (meta.type ≠ some "select" → meta.type ≠ some "number" →
      renderField name meta form =
        Control.textC (labelOf name) (displayedValue form name)
          (meta.placeholder.getD "")) ∧
    (List.lookup name field_meta = none →
      renderField name (metaFor field_meta name) form =
        Control.textC (labelOf name) (displayedValue form name) "") := by
  constructor
  · intro h1 h2; simp [renderField, h1, h2]
  · intro h; simp [renderField, metaFor, h]

/-- Witness for `renderField_default`: an unknown-kind meta and a missing
meta both render as text controls. -/
theorem renderField_default_witness :
    renderField "risk_factor" metaUnknown [] =
      Control.textC "risk factor" (Value.str "") "hi" ∧
    renderField "age" (metaFor [] "age") [] =
      Control.textC "age" (Value.str "") "" := by
  constructor
  · exact (renderField_default "risk_factor" metaUnknown [] []).1
      (by decide) (by decide)
  · exact (renderField_default "age" (metaFor [] "age") [] []).2 rfl

end RW
